import Mathlib

/-!
Verification of the email MCP server core (package `shared`): the new-mail
Poller (`EmailNotificationChecker`), its watermark discipline, the client
lifecycle tracker, and the preview builder.

Go strings are byte slices, so we model them as `List Nat` with each entry a
byte value.  Machine integers (`uint32`, `int32`) are modelled as `Nat`/`Int`
with explicit reduction modulo `2^32` at the points where the Go code
converts or can overflow.
-/

namespace Shared

/-- A Go string: a sequence of bytes. -/
abbrev GoStr := List Nat

/-- Reduction of a natural number to the range of Go's `uint32`. -/
def u32 (n : Nat) : Nat := n % 4294967296

/-- Wrap of an integer to Go's `int32` range (used by `atomic.Int32.Add`). -/
def i32 (n : Int) : Int := (n + 2147483648) % 4294967296 - 2147483648

/-- UTF-8 encoding of a single Unicode code point, byte by byte. -/
def encodeChar (c : Char) : GoStr :=
  let n := c.toNat
  if n < 128 then [n]
  else if n < 2048 then [192 + n / 64, 128 + n % 64]
  else if n < 65536 then [224 + n / 4096, 128 + n / 64 % 64, 128 + n % 64]
  else [240 + n / 262144, 128 + n / 4096 % 64, 128 + n / 64 % 64, 128 + n % 64]

/-- A Go string literal, as its UTF-8 bytes. -/
def lit (s : String) : GoStr := (s.data.map encodeChar).flatten

/-- Is a byte an ASCII decimal digit? -/
def isDigitByte (b : Nat) : Bool := 48 ≤ b && b ≤ 57

/-- Worker for `formatUint`; the fuel bounds the number of divisions by 10
and is never exhausted when it starts at `n` (it forces `n = 0` at 0). -/
def formatUintAux : Nat → Nat → GoStr
  | 0, n => [48 + n % 10]
  | fuel + 1, n => if n < 10 then [48 + n] else formatUintAux fuel (n / 10) ++ [48 + n % 10]

/-- `strconv.FormatUint(n, 10)`: the decimal digits of `n`, as bytes,
most significant first. -/
def formatUint (n : Nat) : GoStr := formatUintAux n n

/-- `fmt.Sscanf(s, "%d", &u)` with `u : uint32`: parses the leading decimal
digits; if there are none, or the value overflows `uint32` (Sscanf then
errors before assigning), `u` keeps its zero value. -/
def sscanfU32 (s : GoStr) : Nat :=
  let ds := s.takeWhile isDigitByte
  if ds = [] then 0
  else
    let v := ds.foldl (fun a b => a * 10 + (b - 48)) 0
    if v < 4294967296 then v else 0

/-- `utf8.DecodeRune`: decodes the first code point of a byte sequence,
returning the rune and the number of bytes consumed.  Invalid or truncated
input yields `(0xFFFD, 1)`; empty input yields `(0xFFFD, 0)`. -/
def decodeRune (p : GoStr) : Nat × Nat :=
  match p with
  | [] => (65533, 0)
  | b0 :: rest =>
    if b0 < 128 then (b0, 1)
    else if b0 < 194 then (65533, 1)
    else if b0 ≤ 223 then
      match rest with
      | b1 :: _ =>
        if 128 ≤ b1 ∧ b1 ≤ 191 then ((b0 - 192) * 64 + (b1 - 128), 2)
        else (65533, 1)
      | [] => (65533, 1)
    else if b0 ≤ 239 then
      let lo1 := if b0 = 224 then 160 else 128
      let hi1 := if b0 = 237 then 159 else 191
      match rest with
      | b1 :: b2 :: _ =>
        if lo1 ≤ b1 ∧ b1 ≤ hi1 ∧ 128 ≤ b2 ∧ b2 ≤ 191 then
          ((b0 - 224) * 4096 + (b1 - 128) * 64 + (b2 - 128), 3)
        else (65533, 1)
      | _ => (65533, 1)
    else if b0 ≤ 244 then
      let lo1 := if b0 = 240 then 144 else 128
      let hi1 := if b0 = 244 then 143 else 191
      match rest with
      | b1 :: b2 :: b3 :: _ =>
        if lo1 ≤ b1 ∧ b1 ≤ hi1 ∧ 128 ≤ b2 ∧ b2 ≤ 191 ∧ 128 ≤ b3 ∧ b3 ≤ 191 then
          ((b0 - 240) * 262144 + (b1 - 128) * 4096 + (b2 - 128) * 64 + (b3 - 128), 4)
        else (65533, 1)
      | _ => (65533, 1)
    else (65533, 1)

/-- `utf8.RuneStart`: a byte that is not a UTF-8 continuation byte. -/
def runeStart (b : Nat) : Bool := !(128 ≤ b && b < 192)

/-- Scan from index `i` down to `lim` for a rune-start byte; if none is found
the Go loop exits at `lim - 1`, clamped to 0 when negative (Nat subtraction
performs exactly that clamp). -/
def lastStart (p : GoStr) (lim : Nat) : Nat → Nat
  | 0 => if runeStart (p.getD 0 0) then 0 else lim - 1
  | i + 1 =>
    if runeStart (p.getD (i + 1) 0) then i + 1
    else if i + 1 ≤ lim then lim - 1
    else lastStart p lim i

/-- `utf8.DecodeLastRune`: decodes the final code point of a byte sequence. -/
def decodeLastRune (p : GoStr) : Nat × Nat :=
  let e := p.length
  if e = 0 then (65533, 0)
  else if p.getD (e - 1) 0 < 128 then (p.getD (e - 1) 0, 1)
  else
    let start := lastStart p (e - 4) (e - 2)
    let (r, size) := decodeRune (p.drop start)
    if start + size = e then (r, size) else (65533, 1)

/-- `unicode.IsSpace` on a code point (Go's White_Space table). -/
def isSpaceRune (r : Nat) : Bool :=
  (r == 9) || (r == 10) || (r == 11) || (r == 12) || (r == 13) || (r == 32) ||
  (r == 133) || (r == 160) || (r == 5760) ||
  (8192 ≤ r && r ≤ 8202) ||
  (r == 8232) || (r == 8233) || (r == 8239) || (r == 8287) || (r == 12288)

/-- Leading-whitespace trimming, rune by rune; the fuel is the byte length,
which suffices because every step drops at least one byte. -/
def trimLeftAux : Nat → GoStr → GoStr
  | 0, s => s
  | _ + 1, [] => []
  | fuel + 1, s =>
    let (r, size) := decodeRune s
    if isSpaceRune r then trimLeftAux fuel (s.drop (max size 1)) else s

/-- Trailing-whitespace trimming, decoding the last rune each step. -/
def trimRightAux : Nat → GoStr → GoStr
  | 0, s => s
  | _ + 1, [] => []
  | fuel + 1, s =>
    let (r, size) := decodeLastRune s
    if isSpaceRune r then trimRightAux fuel (s.take (s.length - max size 1)) else s

/-- `strings.TrimSpace`: trims leading and trailing Unicode whitespace. -/
def trimSpace (s : GoStr) : GoStr := trimRightAux s.length (trimLeftAux s.length s)

/-- Worker for `strings.Fields`: walks the string rune by rune, splitting
around runs of whitespace; field contents keep the original bytes. -/
def fieldsAux : Nat → GoStr → GoStr → List GoStr
  | 0, _, cur => if cur = [] then [] else [cur]
  | _ + 1, [], cur => if cur = [] then [] else [cur]
  | fuel + 1, s, cur =>
    let (r, size) := decodeRune s
    let sz := max size 1
    if isSpaceRune r then
      if cur = [] then fieldsAux fuel (s.drop sz) []
      else cur :: fieldsAux fuel (s.drop sz) []
    else fieldsAux fuel (s.drop sz) (cur ++ s.take sz)

/-- `strings.Fields`: splits around runs of Unicode whitespace. -/
def fields (s : GoStr) : List GoStr := fieldsAux s.length s []

/-- `strings.Join(parts, sep)`. -/
def joinStr (parts : List GoStr) (sep : GoStr) : GoStr :=
  match parts with
  | [] => []
  | p :: ps => ps.foldl (fun acc q => acc ++ sep ++ q) p

/-- The whitespace normalisation performed by `GetEmailPreview`:
`strings.Join(strings.Fields(strings.TrimSpace(body)), " ")`. -/
def normalizeWS (body : GoStr) : GoStr := joinStr (fields (trimSpace body)) (lit " ")

/-- `GetEmailPreview` from `imap.go`: normalises whitespace, then returns the
body unchanged if its byte length is at most `maxLen`, else its first
`maxLen` bytes followed by `"..."`. -/
def GetEmailPreview (body : GoStr) (maxLen : Nat) : GoStr :=
  let b := normalizeWS body
  if b.length ≤ maxLen then b
  else b.take maxLen ++ lit "..."

/-- UTF-8 validity of a byte sequence: scanning with `decodeRune` never hits
an error step (the error cases are exactly those returning size ≤ 1 with
rune `0xFFFD`, which a genuine `U+FFFD` never does — it decodes with size 3). -/
def validUTF8Aux : Nat → GoStr → Bool
  | _, [] => true
  | 0, _ => false
  | fuel + 1, s =>
    let (r, size) := decodeRune s
    if r == 65533 && size ≤ 1 then false
    else validUTF8Aux fuel (s.drop size)

/-- A byte sequence is valid UTF-8. -/
def validUTF8 (s : GoStr) : Bool := validUTF8Aux s.length s

/-! ## IMAP data model

The mail server is an external collaborator: a poll cycle's interactions with
it (connect, SELECT, FETCH) are modelled as an environment record holding the
outcomes the server would produce.  The message records below carry exactly
the fields the `shared` package reads from a fetched message. -/

/-- One address from an envelope: display name and the `Addr()` rendering. -/
structure Address where
  name : GoStr
  addr : GoStr
deriving DecidableEq, Repr

/-- The envelope fields `imap.go` reads from a fetched message.  The receive
time is carried as its RFC3339 rendering, since the only use the core makes
of `Envelope.Date` is `Format(time.RFC3339)`. -/
structure Envelope where
  fromAddrs : List Address
  subject : GoStr
  dateRFC3339 : GoStr
deriving DecidableEq, Repr

/-- A message as returned by a FETCH: UID, flags and optional envelope. -/
structure FetchedMsg where
  uid : Nat
  flags : List GoStr
  envelope : Option Envelope
deriving DecidableEq, Repr

/-- The `Email` struct of `imap.go`.  Field names follow the Go source. -/
structure Email where
  ID : GoStr
  From : GoStr
  Subject : GoStr
  Date : GoStr
  Read : Bool
deriving DecidableEq, Repr

/-- The sender string built from an envelope: `"name <addr>"` when the first
From address has a display name, its bare address otherwise, `""` when the
envelope is absent or has no From address. -/
def msgFrom : Option Envelope → GoStr
  | some env =>
    match env.fromAddrs with
    | a :: _ => if a.name ≠ [] then a.name ++ lit " <" ++ a.addr ++ lit ">" else a.addr
    | [] => []
  | none => []

/-- Does the flag list contain `\Seen`? -/
def msgSeen (flags : List GoStr) : Bool := flags.contains (lit "\\Seen")

/-- The zero `time.Time` rendered with RFC3339, used when a message has no
envelope. -/
def zeroTimeRFC3339 : GoStr := lit "0001-01-01T00:00:00Z"

/-- Conversion of a fetched message to an `Email` record, as performed in the
loop of `GetEmailsSinceUID` (`ID` is the decimal rendering of the UID). -/
def emailOfMsg (m : FetchedMsg) : Email :=
  { ID := formatUint (u32 m.uid)
    From := msgFrom m.envelope
    Subject := match m.envelope with | some e => e.subject | none => []
    Date := match m.envelope with | some e => e.dateRFC3339 | none => zeroTimeRFC3339
    Read := msgSeen m.flags }

/-- The mail-server responses one `GetEmailsSinceUID` call observes:
connect/SELECT outcomes, the mailbox's `UIDNEXT`, and the FETCH outcome. -/
structure ImapEnv where
  connectErr : Bool
  selectErr : Bool
  uidNext : Nat
  fetchErr : Bool
  fetched : List FetchedMsg

/-- `GetEmailsSinceUID` from `imap.go`: after connect and SELECT, the
`UIDNEXT` pre-check short-circuits to an empty result (`sinceUID+1` is a
`uint32` sum, hence the wrap); otherwise the fetched messages are kept in
order, skipping any whose UID is not strictly greater than `sinceUID`. -/
def GetEmailsSinceUID (env : ImapEnv) (sinceUID : Nat) : Except String (List Email) :=
  if env.connectErr then .error "failed to connect to IMAP server"
  else if env.selectErr then .error "failed to select INBOX"
  else if u32 env.uidNext ≤ u32 (sinceUID + 1) then .ok []
  else if env.fetchErr then .error "failed to fetch messages"
  else .ok ((env.fetched.filter (fun m => !(u32 m.uid ≤ sinceUID))).map emailOfMsg)

/-- The mail-server responses one `GetLatestUID` call observes. -/
structure LatestUIDEnv where
  connectErr : Bool
  selectErr : Bool
  numMessages : Nat
  fetchErr : Bool
  fetched : List FetchedMsg

/-- `GetLatestUID` from `imap.go`: 0 for an empty mailbox or an empty fetch
result, otherwise the UID of the (single) fetched last message. -/
def GetLatestUID (env : LatestUIDEnv) : Except String Nat :=
  if env.connectErr then .error "failed to connect to IMAP server"
  else if env.selectErr then .error "failed to select INBOX"
  else if env.numMessages = 0 then .ok 0
  else if env.fetchErr then .error "failed to fetch latest message"
  else
    match env.fetched with
    | [] => .ok 0
    | m :: _ => .ok (u32 m.uid)

/-! ## The notification checker (`handlers.go`) -/

/-- One notification handed to
`broadcaster.SendNotificationToAllClients(method, params)`.  The Go params
value is a `map[string]any`; we record its entries in insertion order (every
value the checker stores is a string). -/
structure Notification where
  method : String
  params : List (String × GoStr)
deriving DecidableEq, Repr

/-- The params map built for a new email in `checkForNewEmails`, entry for
entry in source order. -/
def buildParams (e : Email) (preview : GoStr) : List (String × GoStr) :=
  [("title", lit "New Email Received. From: " ++ e.From ++ lit ", Subject: " ++ e.Subject),
   ("email_id", e.ID),
   ("from", e.From),
   ("subject", e.Subject),
   ("received_at", e.Date),
   ("preview", preview)]

/-- The preview computed for one new email: `GetEmailContents` (modelled by
the oracle `bodyOf`, `none` meaning the fetch errored, `some body` meaning it
returned a detail whose `Body` is `body`) followed by `GetEmailPreview _ 100`;
the preview stays `""` when the fetch errored. -/
def previewOf (bodyOf : GoStr → Option GoStr) (id : GoStr) : GoStr :=
  match bodyOf id with
  | some body => GetEmailPreview body 100
  | none => []

/-- The notification `checkForNewEmails` broadcasts for one email. -/
def notifOf (bodyOf : GoStr → Option GoStr) (e : Email) : Notification :=
  { method := "new_email", params := buildParams e (previewOf bodyOf e.ID) }

/-- One iteration of the loop in `checkForNewEmails`: parse the UID back out
of the ID, raise `lastUID` if the parsed UID exceeds it, build the preview,
and append the broadcast notification. -/
def checkStep (bodyOf : GoStr → Option GoStr) (st : Nat × List Notification)
    (e : Email) : Nat × List Notification :=
  let emailUID := sscanfU32 e.ID
  let last := if emailUID > st.1 then emailUID else st.1
  (last, st.2 ++ [notifOf bodyOf e])

/-- The environment one whole poll cycle observes: the IMAP responses for
`GetEmailsSinceUID` plus the per-message `GetEmailContents` oracle. -/
structure CycleEnv where
  imap : ImapEnv
  bodyOf : GoStr → Option GoStr

/-- `checkForNewEmails` from `handlers.go`, as a function of the watermark it
reads under lock: a failed cycle fetch logs and returns with the watermark
unchanged and nothing broadcast; otherwise the loop processes the returned
emails in order.  Returns the new watermark and the broadcast notifications
in emission order. -/
def checkForNewEmails (lastUID : Nat) (env : CycleEnv) : Nat × List Notification :=
  match GetEmailsSinceUID env.imap lastUID with
  | .error _ => (lastUID, [])
  | .ok newEmails => newEmails.foldl (checkStep env.bodyOf) (lastUID, [])

/-- The watermark after a sequence of poll cycles starting from `w`. -/
def runCycles (w : Nat) (cycles : List CycleEnv) : Nat :=
  cycles.foldl (fun u env => (checkForNewEmails u env).1) w

/-! ## Checker lifecycle (`Start`) -/

/-- The checker state fields `Start` touches: the watermark, the running
flag, whether a broadcaster capability was found at construction, and the
repeating ticker (its interval in seconds) once one has been created. -/
structure CheckerState where
  lastUID : Nat
  running : Bool
  hasBroadcaster : Bool
  ticker : Option Nat
deriving DecidableEq, Repr

/-- A freshly constructed checker (`NewEmailNotificationChecker`): zero
watermark, not running, no ticker; the broadcaster capability is present
exactly when the server supports `SendNotificationToAllClients`. -/
def initialChecker (hasBroadcaster : Bool) : CheckerState :=
  { lastUID := 0, running := false, hasBroadcaster := hasBroadcaster, ticker := none }

/-- The log line emitted when the server cannot broadcast. -/
def noBroadcasterWarning : String :=
  "Warning: Server does not support SendNotificationToAllClients, notifications disabled"

/-- The log line emitted when the initial UID query fails. -/
def initialUIDWarning (e : String) : String :=
  "Warning: Could not get initial email UID: " ++ e

/-- `Start` from `handlers.go`: without a broadcaster it only logs the
warning; when already running it is a no-op; otherwise it derives the initial
watermark from `GetLatestUID` (0 plus a warning on failure), marks the
checker running and starts the ticker at the configured interval.  Returns
the new state and the log lines. -/
def Start (st : CheckerState) (env : LatestUIDEnv) (intervalSeconds : Nat) :
    CheckerState × List String :=
  if st.hasBroadcaster = false then
    (st, [noBroadcasterWarning])
  else if st.running then
    (st, [])
  else
    let (lastUID, warnings) :=
      match GetLatestUID env with
      | .ok u => (u, [])
      | .error e => (0, [initialUIDWarning e])
    ({ st with lastUID := lastUID, running := true, ticker := some intervalSeconds },
     warnings ++ ["Email notification checker started"])

/-! ## Client tracker (`ClientTracker`) -/

/-- The tracker's observable state: the `atomic.Int32` client count plus
counters of how many times `checker.Start()` and `checker.Stop()` have been
invoked. -/
structure TrackerState where
  count : Int
  starts : Nat
  stops : Nat
deriving DecidableEq, Repr

/-- A fresh tracker: zero clients, no start/stop calls yet. -/
def initialTracker : TrackerState := { count := 0, starts := 0, stops := 0 }

/-- `OnClientConnected`: increment the count (`int32` wrap); call `Start`
exactly when the new count is 1 and a checker is set. -/
def onClientConnected (hasChecker : Bool) (st : TrackerState) : TrackerState :=
  let c := i32 (st.count + 1)
  { st with count := c, starts := st.starts + (if c = 1 ∧ hasChecker then 1 else 0) }

/-- `OnClientDisconnected`: decrement the count (`int32` wrap, no floor);
call `Stop` exactly when the new count is 0 and a checker is set. -/
def onClientDisconnected (hasChecker : Bool) (st : TrackerState) : TrackerState :=
  let c := i32 (st.count - 1)
  { st with count := c, stops := st.stops + (if c = 0 ∧ hasChecker then 1 else 0) }

/-- A connect or disconnect signal from the transport layer. -/
inductive ClientEvent
  | connect
  | disconnect
deriving DecidableEq, Repr

/-- Apply one lifecycle signal to the tracker. -/
def applyEvent (hasChecker : Bool) (st : TrackerState) : ClientEvent → TrackerState
  | .connect => onClientConnected hasChecker st
  | .disconnect => onClientDisconnected hasChecker st

/-- Apply a sequence of lifecycle signals to the tracker. -/
def runEvents (hasChecker : Bool) (st : TrackerState) (evs : List ClientEvent) : TrackerState :=
  evs.foldl (applyEvent hasChecker) st

/-! ## Observation helpers and concrete fixtures -/

/-- The keys of a notification's params map, in insertion order. -/
def notifKeys (n : Notification) : List String := n.params.map Prod.fst

/-- Lookup of a params entry by key (first match). -/
def lookupParam (key : String) : List (String × GoStr) → GoStr
  | [] => []
  | (k, v) :: ps => if k = key then v else lookupParam key ps

/-- The UID a notification is about: its `email_id` param, parsed back. -/
def notifUID (n : Notification) : Nat := sscanfU32 (lookupParam "email_id" n.params)

/-- A sample envelope for concrete runs. -/
def sampleEnvelope : Envelope :=
  { fromAddrs := [{ name := lit "Alice", addr := lit "alice@example.com" }],
    subject := lit "Hello", dateRFC3339 := lit "2026-02-03T04:05:06Z" }

/-- A sample unread fetched message with the given UID. -/
def sampleMsg (u : Nat) : FetchedMsg := { uid := u, flags := [], envelope := some sampleEnvelope }

/-- A `GetEmailContents` oracle whose body fetch always fails. -/
def noBody : GoStr → Option GoStr := fun _ => none

/-- A healthy poll-cycle environment returning the given messages. -/
def cycleEnvOf (msgs : List FetchedMsg) : CycleEnv :=
  { imap := { connectErr := false, selectErr := false, uidNext := 1000, fetchErr := false,
              fetched := msgs },
    bodyOf := noBody }

/-- Fixture: one new message with UID 5. -/
def envOneMsg : CycleEnv := cycleEnvOf [sampleMsg 5]

/-- Fixture: the gateway returns UIDs out of order (5 then 3). -/
def envOutOfOrder : CycleEnv := cycleEnvOf [sampleMsg 5, sampleMsg 3]

/-- Fixture: the gateway returns UIDs in order (3 then 5). -/
def envInOrder : CycleEnv := cycleEnvOf [sampleMsg 3, sampleMsg 5]

/-- Fixture: the whole-cycle FETCH fails. -/
def envFetchFail : CycleEnv :=
  { imap := { connectErr := false, selectErr := false, uidNext := 1000, fetchErr := true,
              fetched := [] },
    bodyOf := noBody }

/-- Fixture: one new message with UID 7 (whose body fetch will fail). -/
def envMsg7 : CycleEnv := cycleEnvOf [sampleMsg 7]

/-- Fixture: a mailbox whose last message has UID 12. -/
def latestEnvOk : LatestUIDEnv :=
  { connectErr := false, selectErr := false, numMessages := 3, fetchErr := false,
    fetched := [sampleMsg 12] }

/-- Fixture: the initial-UID query cannot even connect. -/
def latestEnvErr : LatestUIDEnv :=
  { connectErr := true, selectErr := false, numMessages := 0, fetchErr := false, fetched := [] }

/-! ## Lemmas about decimal formatting and parsing -/

/-- Every byte produced by `formatUintAux` is an ASCII digit. -/
theorem formatUintAux_digits (fuel : Nat) :
    ∀ n b, b ∈ formatUintAux fuel n → isDigitByte b = true := by
  induction fuel with
  | zero =>
    intro n b hb
    simp only [formatUintAux, List.mem_singleton] at hb
    subst hb
    have : n % 10 < 10 := Nat.mod_lt _ (by omega)
    simp only [isDigitByte, Bool.and_eq_true, decide_eq_true_eq]
    omega
  | succ fuel ih =>
    intro n b hb
    simp only [formatUintAux] at hb
    split at hb
    · simp only [List.mem_singleton] at hb
      subst hb
      simp only [isDigitByte, Bool.and_eq_true, decide_eq_true_eq]
      omega
    · rcases List.mem_append.mp hb with h | h
      · exact ih _ _ h
      · simp only [List.mem_singleton] at h
        subst h
        have : n % 10 < 10 := Nat.mod_lt _ (by omega)
        simp only [isDigitByte, Bool.and_eq_true, decide_eq_true_eq]
        omega

/-- `formatUintAux` never returns the empty string. -/
theorem formatUintAux_ne_nil (fuel n : Nat) : formatUintAux fuel n ≠ [] := by
  cases fuel with
  | zero => simp [formatUintAux]
  | succ fuel =>
    simp only [formatUintAux]
    split
    · simp
    · simp

/-- Folding the parse step over the digits of `n` recovers `n`. -/
theorem formatUintAux_foldl (fuel : Nat) :
    ∀ n a, n ≤ fuel →
      (formatUintAux fuel n).foldl (fun a b => a * 10 + (b - 48)) a =
        a * 10 ^ (formatUintAux fuel n).length + n := by
  induction fuel with
  | zero =>
    intro n a hn
    have hn0 : n = 0 := by omega
    subst hn0
    simp [formatUintAux]
  | succ fuel ih =>
    intro n a hn
    simp only [formatUintAux]
    split
    · next h =>
      simp only [List.foldl_cons, List.foldl_nil, List.length_singleton, pow_one]
      omega
    · next h =>
      rw [List.foldl_append, ih (n / 10) a (by omega)]
      simp only [List.foldl_cons, List.foldl_nil, List.length_append,
        List.length_singleton, pow_succ]
      have hmod : 48 + n % 10 - 48 = n % 10 := by omega
      rw [hmod]
      calc (a * 10 ^ (formatUintAux fuel (n / 10)).length + n / 10) * 10 + n % 10
          = a * 10 ^ (formatUintAux fuel (n / 10)).length * 10 + (10 * (n / 10) + n % 10) := by
            ring
        _ = a * (10 ^ (formatUintAux fuel (n / 10)).length * 10) + n := by
            rw [Nat.div_add_mod]; ring

/-- `takeWhile` keeps a list all of whose entries satisfy the predicate. -/
theorem takeWhile_all {p : Nat → Bool} :
    ∀ l : GoStr, (∀ b ∈ l, p b = true) → l.takeWhile p = l := by
  intro l
  induction l with
  | nil => intro _; rfl
  | cons b l ih =>
    intro h
    simp only [List.takeWhile_cons, h b (List.mem_cons_self b l), if_true, List.cons.injEq,
      true_and]
    exact ih fun x hx => h x (List.mem_cons_of_mem _ hx)

/-- Parsing the decimal rendering of a `uint32` value recovers the value. -/
theorem sscanfU32_formatUint (v : Nat) (h : v < 4294967296) :
    sscanfU32 (formatUint v) = v := by
  have hdig : ∀ b ∈ formatUint v, isDigitByte b = true :=
    fun b hb => formatUintAux_digits v v b hb
  have hne : formatUint v ≠ [] := formatUintAux_ne_nil v v
  have hfold := formatUintAux_foldl v v 0 le_rfl
  simp only [sscanfU32, takeWhile_all _ hdig]
  rw [if_neg hne]
  simp only [formatUint] at hfold ⊢
  rw [hfold]
  simp only [Nat.zero_mul, Nat.zero_add]
  exact if_pos h

/-! ## Lemmas about poll cycles -/

/-- The watermark component of the processing loop never decreases. -/
theorem checkFold_fst_ge (b : GoStr → Option GoStr) :
    ∀ (es : List Email) (w : Nat) (acc : List Notification),
      w ≤ (es.foldl (checkStep b) (w, acc)).1 := by
  intro es
  induction es with
  | nil => intro w acc; exact le_rfl
  | cons e es ih =>
    intro w acc
    simp only [List.foldl_cons]
    refine le_trans ?_ (ih _ _)
    simp only [checkStep]
    split <;> omega

/-- The notifications accumulated by the processing loop: one per email, in
the emails' order, appended to the accumulator. -/
theorem checkFold_snd (b : GoStr → Option GoStr) :
    ∀ (es : List Email) (w : Nat) (acc : List Notification),
      (es.foldl (checkStep b) (w, acc)).2 = acc ++ es.map (notifOf b) := by
  intro es
  induction es with
  | nil => intro w acc; simp
  | cons e es ih =>
    intro w acc
    simp only [List.foldl_cons, checkStep, List.map_cons]
    rw [ih]
    simp

/-- A failed whole-cycle fetch leaves the cycle's result at
`(watermark, no notifications)`. -/
theorem check_error_eq {w : Nat} {env : CycleEnv} {e : String}
    (h : GetEmailsSinceUID env.imap w = .error e) :
    checkForNewEmails w env = (w, []) := by
  simp only [checkForNewEmails, h]

/-- A successful cycle broadcasts exactly one notification per returned
email, in order. -/
theorem check_ok_snd {w : Nat} {env : CycleEnv} {emails : List Email}
    (h : GetEmailsSinceUID env.imap w = .ok emails) :
    (checkForNewEmails w env).2 = emails.map (notifOf env.bodyOf) := by
  simp only [checkForNewEmails, h]
  rw [checkFold_snd]
  simp

/-- What a successful `GetEmailsSinceUID` can return: nothing (the `UIDNEXT`
pre-check), or the fetched messages with UID above the watermark, in order. -/
theorem getEmailsSince_ok_char (env : ImapEnv) (w : Nat) {emails : List Email}
    (h : GetEmailsSinceUID env w = .ok emails) :
    emails = [] ∨
      emails = (env.fetched.filter (fun m => !(u32 m.uid ≤ w))).map emailOfMsg := by
  simp only [GetEmailsSinceUID] at h
  split at h
  · exact absurd h (by simp)
  · split at h
    · exact absurd h (by simp)
    · split at h
      · left
        injection h with h
        exact h.symm
      · split at h
        · exact absurd h (by simp)
        · right
          injection h with h
          exact h.symm

/-- Every broadcast notification of a cycle originates from a fetched message
whose UID is strictly above the watermark. -/
theorem mem_check_notifs {w : Nat} {env : CycleEnv} {n : Notification}
    (hn : n ∈ (checkForNewEmails w env).2) :
    ∃ m, m ∈ env.imap.fetched ∧ w < u32 m.uid ∧ n = notifOf env.bodyOf (emailOfMsg m) := by
  rcases hok : GetEmailsSinceUID env.imap w with e | emails
  · rw [check_error_eq hok] at hn
    simp at hn
  · rw [check_ok_snd hok] at hn
    rcases getEmailsSince_ok_char _ _ hok with rfl | rfl
    · simp at hn
    · rcases List.mem_map.mp hn with ⟨e, he, rfl⟩
      rcases List.mem_map.mp he with ⟨m, hm, rfl⟩
      rcases List.mem_filter.mp hm with ⟨hmem, hp⟩
      simp only [Bool.not_eq_true', decide_eq_false_iff_not, Nat.not_le] at hp
      exact ⟨m, hmem, hp, rfl⟩

/-- One poll cycle never lowers the watermark. -/
theorem check_fst_ge (w : Nat) (env : CycleEnv) : w ≤ (checkForNewEmails w env).1 := by
  rcases hok : GetEmailsSinceUID env.imap w with e | emails
  · rw [check_error_eq hok]
  · simp only [checkForNewEmails, hok]
    exact checkFold_fst_ge env.bodyOf emails w []

/-- Any sequence of poll cycles never lowers the watermark. -/
theorem runCycles_ge : ∀ (cs : List CycleEnv) (w : Nat), w ≤ runCycles w cs := by
  intro cs
  induction cs with
  | nil => intro w; exact le_rfl
  | cons c cs ih =>
    intro w
    simp only [runCycles, List.foldl_cons]
    exact le_trans (check_fst_ge w c) (ih _)

/-- The `email_id` of the notification built for a fetched message parses
back to the message's UID. -/
theorem notifUID_notifOf (b : GoStr → Option GoStr) (m : FetchedMsg) :
    notifUID (notifOf b (emailOfMsg m)) = u32 m.uid := by
  simp only [notifUID, notifOf, buildParams]
  rw [lookupParam, if_neg (by decide), lookupParam, if_pos rfl]
  exact sscanfU32_formatUint _ (Nat.mod_lt _ (by omega))

/-- Splitting a cycle sequence at any point composes the watermark runs. -/
theorem runCycles_append (w : Nat) (c d : List CycleEnv) :
    runCycles w (c ++ d) = runCycles (runCycles w c) d := by
  simp [runCycles, List.foldl_append]

/-! ## Claim theorems -/

/-- C1 counterexample: on a cycle that discovers one new message, the params
object handed to the Broadcaster carries a sixth field `title` in addition to
the five fields the claim lists, so it does not contain exactly
`email_id`, `from`, `subject`, `received_at`, `preview`. -/
theorem C1_title_field_counterexample :
    (checkForNewEmails 0 envOneMsg).2.map notifKeys =
      [["title", "email_id", "from", "subject", "received_at", "preview"]] ∧
    ("title" : String) ∉
      (["email_id", "from", "subject", "received_at", "preview"] : List String) := by
  decide

/-- C1 (amended): every notification handed to the Broadcaster by a poll
cycle has method `new_email` and its params object contains exactly the
fields `title`, `email_id`, `from`, `subject`, `received_at`, `preview`. -/
theorem C1_notification_fields (w : Nat) (env : CycleEnv) (n : Notification)
    (hn : n ∈ (checkForNewEmails w env).2) :
    n.method = "new_email" ∧
    notifKeys n = ["title", "email_id", "from", "subject", "received_at", "preview"] := by
  rcases mem_check_notifs hn with ⟨m, _, _, rfl⟩
  exact ⟨rfl, rfl⟩

/-- C1 witness: the amended theorem applied to the concrete notification the
one-message fixture cycle broadcasts. -/
theorem C1_notification_fields_witness :
    notifOf envOneMsg.bodyOf (emailOfMsg (sampleMsg 5)) ∈ (checkForNewEmails 0 envOneMsg).2 ∧
    ((notifOf envOneMsg.bodyOf (emailOfMsg (sampleMsg 5))).method = "new_email" ∧
      notifKeys (notifOf envOneMsg.bodyOf (emailOfMsg (sampleMsg 5))) =
        ["title", "email_id", "from", "subject", "received_at", "preview"]) :=
  ⟨by decide, C1_notification_fields 0 envOneMsg _ (by decide)⟩

/-- C2 counterexample: the tracker does not floor the client count at 0 — the
sequence connect, disconnect, disconnect leaves the count at −1, not 0, and
the extra disconnect is not a no-op (it changes the state). -/
theorem C2_negative_count_counterexample :
    (runEvents true initialTracker [.connect, .disconnect, .disconnect]).count = -1 ∧
    runEvents true initialTracker [.connect, .disconnect, .disconnect] ≠
      runEvents true initialTracker [.connect, .disconnect] := by
  decide

/-- C2 (amended): the client count is a plain `int32` counter with no floor:
after connect, disconnect, disconnect it is −1 with `Start` and `Stop` each
called exactly once, and a subsequent connect brings it to 0 — which does not
start the Poller (start fires only on reaching exactly 1). -/
theorem C2_lifecycle_amended :
    (runEvents true initialTracker [.connect, .disconnect, .disconnect]).count = -1 ∧
    (runEvents true initialTracker [.connect, .disconnect, .disconnect]).starts = 1 ∧
    (runEvents true initialTracker [.connect, .disconnect, .disconnect]).stops = 1 ∧
    (runEvents true initialTracker [.connect, .disconnect, .disconnect, .connect]).count = 0 ∧
    (runEvents true initialTracker [.connect, .disconnect, .disconnect, .connect]).starts = 1 ∧
    (runEvents true initialTracker [.connect, .disconnect, .disconnect, .connect]).stops = 1 := by
  decide

/-- C3: the watermark is monotonically non-decreasing — one execution of the
check routine never lowers it, and along any sequence of poll cycles the
value after an extension is at least the value reached before it. -/
theorem C3_watermark_monotone :
    (∀ (w : Nat) (env : CycleEnv), w ≤ (checkForNewEmails w env).1) ∧
    (∀ (w : Nat) (c d : List CycleEnv), runCycles w c ≤ runCycles w (c ++ d)) := by
  refine ⟨check_fst_ge, ?_⟩
  intro w c d
  rw [runCycles_append]
  exact runCycles_ge d _

/-- C4: with watermark `w`, a single execution of the check routine emits
notifications only for messages whose UID is strictly greater than `w`:
every broadcast notification originates from a gateway message with
UID > `w`, so messages with UID ≤ `w` are never broadcast. -/
theorem C4_only_above_watermark (w : Nat) (env : CycleEnv) (n : Notification)
    (hn : n ∈ (checkForNewEmails w env).2) :
    ∃ m, m ∈ env.imap.fetched ∧ w < u32 m.uid ∧ n = notifOf env.bodyOf (emailOfMsg m) :=
  mem_check_notifs hn

/-- C4 witness: the theorem applied to the notification broadcast for UID 5
when the watermark is 3. -/
theorem C4_only_above_watermark_witness :
    notifOf envOneMsg.bodyOf (emailOfMsg (sampleMsg 5)) ∈ (checkForNewEmails 3 envOneMsg).2 ∧
    ∃ m, m ∈ envOneMsg.imap.fetched ∧ 3 < u32 m.uid ∧
      notifOf envOneMsg.bodyOf (emailOfMsg (sampleMsg 5)) =
        notifOf envOneMsg.bodyOf (emailOfMsg m) :=
  ⟨by decide, C4_only_above_watermark 3 envOneMsg _ (by decide)⟩

/-- C5: `Start` on a constructed, non-running checker with a broadcaster: if
the initial highest-UID query succeeds the watermark is set to its value; if
it fails the watermark is set to 0 and a warning is logged; in both cases the
checker becomes running with a ticker at the configured interval. -/
theorem C5_start_behavior (st : CheckerState) (env : LatestUIDEnv) (i v : Nat) (e : String)
    (hb : st.hasBroadcaster = true) (hr : st.running = false) :
    (GetLatestUID env = .ok v →
      Start st env i = ({ st with lastUID := v, running := true, ticker := some i },
        ["Email notification checker started"])) ∧
    (GetLatestUID env = .error e →
      Start st env i = ({ st with lastUID := 0, running := true, ticker := some i },
        [initialUIDWarning e, "Email notification checker started"])) := by
  constructor
  · intro h
    unfold Start
    rw [hb, hr, h]
    simp
  · intro h
    unfold Start
    rw [hb, hr, h]
    simp

/-- C5 witness: the theorem applied to a fresh checker against a healthy
mailbox (watermark becomes 12) and against an unreachable one (watermark 0,
warning logged); both end up running with a 30-second ticker. -/
theorem C5_start_behavior_witness :
    GetLatestUID latestEnvOk = .ok 12 ∧
    Start (initialChecker true) latestEnvOk 30 =
      ({ initialChecker true with lastUID := 12, running := true, ticker := some 30 },
        ["Email notification checker started"]) ∧
    GetLatestUID latestEnvErr = .error "failed to connect to IMAP server" ∧
    Start (initialChecker true) latestEnvErr 30 =
      ({ initialChecker true with lastUID := 0, running := true, ticker := some 30 },
        [initialUIDWarning "failed to connect to IMAP server",
          "Email notification checker started"]) :=
  ⟨rfl,
   (C5_start_behavior (initialChecker true) latestEnvOk 30 12 "" rfl rfl).1 rfl,
   rfl,
   (C5_start_behavior (initialChecker true) latestEnvErr 30 0
      "failed to connect to IMAP server" rfl rfl).2 rfl⟩

/-- C6 counterexample: the check routine processes messages in the order the
gateway returns them, without sorting — when the gateway returns UIDs 5 then
3 (both new), the notifications go out in that order, which is not
non-decreasing. -/
theorem C6_uid_order_counterexample :
    (checkForNewEmails 0 envOutOfOrder).2.map notifUID = [5, 3] ∧
    ¬ ((checkForNewEmails 0 envOutOfOrder).2.map notifUID).Pairwise (· ≤ ·) := by
  decide

/-- C6 (amended): within a single poll cycle, notifications are emitted in
the gateway's return order; whenever the gateway returns its messages in
non-decreasing UID order, the notifications are emitted in non-decreasing
UID order. -/
theorem C6_uid_order_amended (w : Nat) (env : CycleEnv)
    (hs : (env.imap.fetched.map (fun m => u32 m.uid)).Pairwise (· ≤ ·)) :
    ((checkForNewEmails w env).2.map notifUID).Pairwise (· ≤ ·) := by
  rcases hok : GetEmailsSinceUID env.imap w with e | emails
  · rw [check_error_eq hok]
    simp
  · rw [check_ok_snd hok]
    rcases getEmailsSince_ok_char _ _ hok with rfl | rfl
    · simp
    · rw [List.map_map, List.map_map, List.pairwise_map]
      rw [List.pairwise_map] at hs
      have hf := hs.filter (fun m => !(u32 m.uid ≤ w))
      exact hf.imp fun hab => by
        simpa only [Function.comp_apply, notifUID_notifOf] using hab

/-- C6 witness: the amended theorem applied to a gateway returning UIDs 3
then 5 in order. -/
theorem C6_uid_order_amended_witness :
    (envInOrder.imap.fetched.map (fun m => u32 m.uid)).Pairwise (· ≤ ·) ∧
    ((checkForNewEmails 0 envInOrder).2.map notifUID).Pairwise (· ≤ ·) :=
  ⟨by decide, C6_uid_order_amended 0 envInOrder (by decide)⟩

/-- C7: when the whole-cycle fetch fails, the check routine ends early with
the watermark unchanged and no notification emitted, so the next tick retries
from the same watermark. -/
theorem C7_cycle_error_no_change (w : Nat) (env : CycleEnv) (e : String)
    (h : GetEmailsSinceUID env.imap w = .error e) :
    checkForNewEmails w env = (w, []) :=
  check_error_eq h

/-- C7 witness: the theorem applied to a cycle whose FETCH fails. -/
theorem C7_cycle_error_no_change_witness :
    GetEmailsSinceUID envFetchFail.imap 0 = .error "failed to fetch messages" ∧
    checkForNewEmails 0 envFetchFail = (0, []) :=
  ⟨rfl, C7_cycle_error_no_change 0 envFetchFail "failed to fetch messages" rfl⟩

/-- C8: a new message whose body fetch fails still gets its notification,
with an empty preview, rather than being dropped. -/
theorem C8_preview_failure_still_emits (w : Nat) (env : CycleEnv) (emails : List Email)
    (e : Email) (h : GetEmailsSinceUID env.imap w = .ok emails) (he : e ∈ emails)
    (hb : env.bodyOf e.ID = none) :
    { method := "new_email", params := buildParams e [] : Notification } ∈
      (checkForNewEmails w env).2 := by
  rw [check_ok_snd h]
  refine List.mem_map.mpr ⟨e, he, ?_⟩
  simp [notifOf, previewOf, hb]

/-- C8 witness: the theorem applied to the UID-7 fixture whose
`GetEmailContents` oracle always fails. -/
theorem C8_preview_failure_still_emits_witness :
    GetEmailsSinceUID envMsg7.imap 2 = .ok [emailOfMsg (sampleMsg 7)] ∧
    emailOfMsg (sampleMsg 7) ∈ [emailOfMsg (sampleMsg 7)] ∧
    envMsg7.bodyOf (emailOfMsg (sampleMsg 7)).ID = none ∧
    { method := "new_email", params := buildParams (emailOfMsg (sampleMsg 7)) []
        : Notification } ∈ (checkForNewEmails 2 envMsg7).2 :=
  ⟨rfl, by decide,  rfl,
   C8_preview_failure_still_emits 2 envMsg7 [emailOfMsg (sampleMsg 7)]
     (emailOfMsg (sampleMsg 7)) rfl (by decide) rfl⟩

/-- C9: a checker constructed without a broadcaster capability does not start
on `Start`: the state is unchanged (not running, no ticker, watermark not
initialised) and only the notifications-disabled warning is logged. -/
theorem C9_no_broadcaster_no_start (env : LatestUIDEnv) (i : Nat) :
    Start (initialChecker false) env i = (initialChecker false, [noBroadcasterWarning]) ∧
    (initialChecker false).running = false ∧
    (initialChecker false).ticker = none ∧
    (initialChecker false).lastUID = 0 :=
  ⟨rfl, rfl, rfl, rfl⟩

/-- C10: `GetEmailPreview` normalises whitespace (trims, and collapses runs
of whitespace to single spaces), returns the normalised body unchanged when
its byte length is at most `maxLen`, and otherwise returns its first `maxLen`
bytes followed by `"..."`; the output never exceeds `maxLen + 3` bytes, and
the byte-based cut can split a multi-byte UTF-8 character (cutting `"é"` at
1 byte yields invalid UTF-8). -/
theorem C10_preview_spec :
    (∀ (body : GoStr) (maxLen : Nat), (GetEmailPreview body maxLen).length ≤ maxLen + 3) ∧
    (∀ (body : GoStr) (maxLen : Nat), (normalizeWS body).length ≤ maxLen →
        GetEmailPreview body maxLen = normalizeWS body) ∧
    (∀ (body : GoStr) (maxLen : Nat), maxLen < (normalizeWS body).length →
        GetEmailPreview body maxLen = (normalizeWS body).take maxLen ++ lit "...") ∧
    GetEmailPreview (lit "é") 1 = [195] ++ lit "..." ∧
    validUTF8 (normalizeWS (lit "é")) = true ∧
    validUTF8 (GetEmailPreview (lit "é") 1) = false ∧
    normalizeWS (lit "  a \t b  ") = lit "a b" := by
  refine ⟨?_, ?_, ?_, by decide, by decide, by decide, by decide⟩
  · intro body maxLen
    simp only [GetEmailPreview]
    split
    · next h => omega
    · next h =>
      rw [List.length_append, List.length_take]
      have h3 : (lit "...").length = 3 := by decide
      omega
  · intro body maxLen h
    simp only [GetEmailPreview]
    rw [if_pos h]
  · intro body maxLen h
    simp only [GetEmailPreview]
    rw [if_neg (by omega)]

/-- C10 witness: the bounded branch of the theorem applied to a short body. -/
theorem C10_preview_spec_witness :
    (normalizeWS (lit "hello")).length ≤ 10 ∧
    GetEmailPreview (lit "hello") 10 = normalizeWS (lit "hello") :=
  ⟨by decide, C10_preview_spec.2.1 (lit "hello") 10 (by decide)⟩

end Shared
